import Mathlib

/-!
Verification development for the directional-futures trading engine
(src/backup_api_fixes_20250709_130128/symbol_engine.py and
src/backup_api_fixes_20250709_130128/UMBinanceTrader.py).

The Python code is shallowly embedded: pure fragments become Lean functions
over exact rational arithmetic; calls into collaborator modules that are not
part of the repository snapshot (rate limiter, cooldown managers, exception
handler, exchange HTTP transport) are passed in as explicit outcome
parameters (`Bool`, `Option`, `Except`), so each embedded function is a
function of the engine state plus the outcomes of its external calls.
Outbound exchange requests are reified as an `ApiCall` trace so that
"no API call is made" is a provable statement.
-/

namespace Trading

/-- Position direction (the `positionSide` of the exchange and the
`side` strings "LONG"/"SHORT" used throughout `symbol_engine.py`). -/
inductive Side
  | LONG
  | SHORT
deriving DecidableEq, Repr

/-- The opposite direction (`"SHORT" if side == "LONG" else "LONG"`). -/
def Side.opposite : Side → Side
  | .LONG => .SHORT
  | .SHORT => .LONG

/-- The lower-case direction string used by the signal layer. -/
def Side.dirName : Side → String
  | .LONG => "long"
  | .SHORT => "short"

/-- The order side submitted to the exchange
(`"BUY" if side == "LONG" else "SELL"`). -/
def Side.orderSideStr : Side → String
  | .LONG => "BUY"
  | .SHORT => "SELL"

/-- One outbound exchange request issued by the engine.  The embedding
returns the list of such requests each code path makes, in order. -/
inductive ApiCall
  | placeLimit (orderSide : String) (qty price : ℚ)
  | placeMarket (orderSide : String) (qty : ℚ)
  | cancelOrder (orderId : String)
  | queryStatus (orderId : String)
  | syncPositions
deriving DecidableEq, Repr

/-- One order record held by the tracker, mirroring the dict fields the
engine reads and writes: `order_id`, `qty`, `entry_price`, `submit_time`,
`entry_pending`, `closed`, `timeout_processing`, `floating_pnl`.
`orderId = none` models an absent / falsy `order_id`. -/
structure Order where
  orderId : Option String
  qty : ℚ
  entryPrice : ℚ
  submitTime : ℚ
  entryPending : Bool
  closed : Bool
  timeoutProcessing : Bool
  floatingPnl : ℚ
deriving DecidableEq, Repr

/-- Modelled from the spec: the position/order tracker
(`modules["tracker"]`) is not under src/.  Per section 4.3 (Order Ledger)
it keeps, per direction, the list of orders plus an aggregate quantity
that `add_order` updates and `close_orders` zeroes. -/
structure TrackerState where
  longOrders : List Order
  shortOrders : List Order
  longTotalQty : ℚ
  shortTotalQty : ℚ
deriving DecidableEq, Repr

/-- The per-direction order list of the tracker. -/
def TrackerState.orders (t : TrackerState) : Side → List Order
  | .LONG => t.longOrders
  | .SHORT => t.shortOrders

/-- `tracker.get_total_quantity(side)`: the stored aggregate quantity. -/
def TrackerState.totalQty (t : TrackerState) : Side → ℚ
  | .LONG => t.longTotalQty
  | .SHORT => t.shortTotalQty

/-- The empty tracker (fresh state, also the result of `reset()`). -/
def TrackerState.empty : TrackerState :=
  { longOrders := [], shortOrders := [], longTotalQty := 0, shortTotalQty := 0 }

/-- Replace one direction's order list and aggregate quantity. -/
def TrackerState.withSide (t : TrackerState) : Side → List Order → ℚ → TrackerState
  | .LONG, os, q => { t with longOrders := os, longTotalQty := q }
  | .SHORT, os, q => { t with shortOrders := os, shortTotalQty := q }

/-- Floating profit/loss in percent, recomputed from entry price, current
price and side (spec section 4.3: pure function, never persisted). -/
def pnlPct (s : Side) (entry current : ℚ) : ℚ :=
  if entry = 0 then 0
  else
    match s with
    | .LONG => (current - entry) / entry * 100
    | .SHORT => (entry - current) / entry * 100

/-- Modelled from the spec: one mutation of the Order Ledger, per the
section 4.3 contract — `add_order` (idempotent against the same order id),
`close_orders`, `reset`, `update_floating_pnl`. -/
inductive LedgerOp
  | addOrder (side : Side) (o : Order)
  | closeOrders (side : Side)
  | reset
  | updateFloatingPnl (side : Side) (price : ℚ)

/-- Apply one ledger mutation.  `addOrder` appends a freshly confirmed
(open) order and adds its quantity to the aggregate, unless an order with
the same id already exists on that side (idempotency); `closeOrders` marks
every order of the side closed and zeroes the aggregate; `reset` clears
everything; `updateFloatingPnl` recomputes each order's floating P&L and
touches nothing else. -/
def TrackerState.applyOp (t : TrackerState) : LedgerOp → TrackerState
  | .addOrder s o =>
      if (t.orders s).any (fun p => decide (p.orderId = o.orderId)) then t
      else t.withSide s (t.orders s ++ [{ o with closed := false }]) (t.totalQty s + o.qty)
  | .closeOrders s =>
      t.withSide s ((t.orders s).map fun o => { o with closed := true }) 0
  | .reset => TrackerState.empty
  | .updateFloatingPnl s price =>
      t.withSide s
        ((t.orders s).map fun o => { o with floatingPnl := pnlPct s o.entryPrice price })
        (t.totalQty s)

/-- `tracker.get_active_orders(side)`: the side's non-closed orders. -/
def TrackerState.activeOrders (t : TrackerState) (s : Side) : List Order :=
  (t.orders s).filter fun o => !o.closed

/-- Sum of the quantities of a side's non-closed orders. -/
def sumActiveQty (t : TrackerState) (s : Side) : ℚ :=
  ((t.activeOrders s).map Order.qty).sum

/-- The engine's direct in-place order mutation `o["closed"] = True`
(symbol_engine.py 869, 1065 and 2049): the order dict obtained from
`get_active_orders` is closed in place, bypassing the ledger contract
operations, so the stored aggregate quantity is left untouched. -/
def TrackerState.markOrderClosed (t : TrackerState) (s : Side) (oid : Option String) :
    TrackerState :=
  t.withSide s
    ((t.orders s).map fun o => if o.orderId = oid then { o with closed := true } else o)
    (t.totalQty s)

/-- The ledger invariant of spec section 8: for every direction the stored
aggregate quantity equals the sum of the non-closed orders' quantities. -/
def ledger_invariant (t : TrackerState) : Prop :=
  ∀ s : Side, t.totalQty s = sumActiveQty t s

/-- `UMBinanceTrader.adjust_price` (UMBinanceTrader.py 58-80): round a
price down to the symbol's tick size with Decimal ROUND_DOWN, substituting
the tick itself for non-positive or sub-tick prices, and again if the
rounded value is non-positive. -/
def adjust_price (tick price : ℚ) : ℚ :=
  if price ≤ 0 ∨ price < tick then tick
  else
    let adjusted : ℚ := tick * ((Int.floor (price / tick) : ℤ) : ℚ)
    if adjusted ≤ 0 then tick else adjusted

/-- `UMBinanceTrader.place_limit_order`, price computation
(UMBinanceTrader.py 82-105): the caller-supplied `price` argument is
overwritten before submission — for SELL the best bid times 1.0005, for
any other side the best ask times 0.9995; if the order-book fetch fails,
the cached last price (`or 1.0` when that is falsy); the result is then
tick-rounded by `adjust_price`.  `book` is the outcome of the depth
request, `cachedPrice` the market cache value (`none` models Python
None). -/
def place_limit_order_price (orderSide : String) (callerPrice : ℚ)
    (book : Except Unit (ℚ × ℚ)) (cachedPrice : Option ℚ) (tick : ℚ) : ℚ :=
  let price := callerPrice
  let price :=
    match book with
    | .ok (bid, ask) =>
        if orderSide = "SELL" then bid * (1.0005 : ℚ) else ask * (0.9995 : ℚ)
    | .error _ =>
        match cachedPrice with
        | some p => if p = 0 then (1 : ℚ) else p
        | none => 1
  adjust_price tick price

/-- `UMBinanceTrader.cancel_order` (UMBinanceTrader.py 172-177): both the
success branch and the exception branch only print; the body has no
return statement, so the Python function returns None for every outcome.
`none` models Python None, `some b` a boolean return value. -/
def cancel_order (exchangeOutcome : Except Unit Unit) : Option Bool :=
  match exchangeOutcome with
  | .ok _ => none
  | .error _ => none

/-- `SymbolEngine.get_current_price` (symbol_engine.py 139-153): the
WebSocket cache price when positive, else the default price 1.0. -/
def get_current_price (wsPrice : Option ℚ) : ℚ :=
  match wsPrice with
  | some p => if 0 < p then p else 1
  | none => 1

/-- `SymbolEngine.is_in_loss_cooldown` (symbol_engine.py 433-454):
delegates to the unified cooldown manager; on an internal exception it
returns True (entry blocked — fail closed).  `managerOutcome` is the
outcome of the manager call (`.error` models a raised exception). -/
def is_in_loss_cooldown (managerOutcome : Except Unit Bool) : Bool :=
  match managerOutcome with
  | .ok inCooldown => inCooldown
  | .error _ => true

/-- Modelled from the spec:
`core.unified_exception_handler.handle_mutual_exclusion_exception` is
imported by symbol_engine.py but is not under src/.  Spec section 4.4
fixes the contract for the cross-symbol global-risk check: an internal
error defaults to allow.  The handler returns `(is_allowed, reason)`;
only the allow decision is modelled. -/
def handle_global_risk_exception : Except Unit Bool := .ok true

/-- `SymbolEngine._check_global_directional_risk` (symbol_engine.py
1198-1235): no manager → allow; manager verdict → negate `should_block`;
manager exception → consult the unified exception handler, and if the
handler itself raises, allow (the trailing bare `except: return True`). -/
def check_global_directional_risk (managerPresent : Bool)
    (managerOutcome : Except Unit Bool) (handlerOutcome : Except Unit Bool) : Bool :=
  if !managerPresent then true
  else
    match managerOutcome with
    | .ok shouldBlock => !shouldBlock
    | .error _ =>
        match handlerOutcome with
        | .ok isAllowed => isAllowed
        | .error _ => true

/-- External outcomes consumed by
`SymbolEngine._place_market_order_with_rate_limit`: the local tracker
position for the order's side, the admission verdict, the outcome of
waiting for a slot, and the exchange's order id (None on failure). -/
structure MarketEnv where
  currentPosition : ℚ
  canRequest : Bool
  waitOk : Bool
  traderOrderId : Option String
deriving DecidableEq, Repr

/-- `SymbolEngine._place_market_order_with_rate_limit` (symbol_engine.py
1824-1878): skip when the side already holds a position; with an admission
slot, place the market order; with the budget exhausted, log the bypass
violation, wait up to 10 s for a slot, and if that fails force the market
order anyway (emergency bypass).  Returns the order id, the outbound
calls, and whether a rate-limit violation was logged. -/
def place_market_order_with_rate_limit (env : MarketEnv) (orderSide : String)
    (qty : ℚ) : Option String × List ApiCall × Bool :=
  if 0 < env.currentPosition then (none, [], false)
  else if env.canRequest then (env.traderOrderId, [.placeMarket orderSide qty], false)
  else if env.waitOk then (env.traderOrderId, [.placeMarket orderSide qty], true)
  else (env.traderOrderId, [.placeMarket orderSide qty], true)

/-- `SymbolEngine._check_order_status_with_rate_limit` (symbol_engine.py
1768-1792): with an admission slot, query the exchange; when admission is
denied, make no exchange call and return the fallback status "UNKNOWN"
(the string "ERROR" is reserved for raised exceptions). -/
def check_order_status_with_rate_limit (canRequest : Bool) (traderStatus : String)
    (orderId : String) : String × List ApiCall :=
  if canRequest then (traderStatus, [.queryStatus orderId])
  else ("UNKNOWN", [])

/-- `SymbolEngine._cancel_order_with_rate_limit` (symbol_engine.py
1794-1822): with an admission slot (or after a successful 3 s wait) call
`trader.cancel_order`; if admission is denied and the wait times out,
return False without an exchange call. -/
def cancel_order_with_rate_limit (canRequest waitOk : Bool)
    (exchangeOutcome : Except Unit Unit) (orderId : String) :
    Option Bool × List ApiCall :=
  if canRequest then (cancel_order exchangeOutcome, [.cancelOrder orderId])
  else if waitOk then (cancel_order exchangeOutcome, [.cancelOrder orderId])
  else (some false, [])

/-- External outcomes consumed by one pass of
`SymbolEngine._check_pending_orders_timeout` over one order. -/
structure TimeoutEnv where
  now : ℚ
  wsPrice : Option ℚ
  cancelCanRequest : Bool
  cancelWaitOk : Bool
  cancelExchange : Except Unit Unit
  market : MarketEnv
deriving Repr

/-- Terminal classification of a processed entry order: still pending in
SUBMITTED, filled through the market escalation, or rejected. -/
inductive EntryResolution
  | filledViaEscalation
  | rejectedEntry
  | pendingSubmitted
deriving DecidableEq, Repr

/-- Resolution of an order after timeout processing: an order not closed
is still dangling; a closed order whose `entry_pending` flag was cleared
was filled by the market escalation, otherwise it ended rejected. -/
def entryResolution (o : Order) : EntryResolution :=
  if !o.closed then .pendingSubmitted
  else if !o.entryPending then .filledViaEscalation
  else .rejectedEntry

/-- `SymbolEngine._check_pending_orders_timeout` (symbol_engine.py
818-873), body for a single tracked order: a pending, unprocessed entry
order older than 30 s is marked in-processing, its limit order is
cancelled (best-effort, through admission control), a market order for the
same quantity is placed regardless of the cancel outcome, the order's
fields are rewritten on market success, and the order is closed in every
case. -/
def check_pending_order_timeout (env : TimeoutEnv) (side : Side) (o : Order) :
    Order × List ApiCall :=
  if o.entryPending && !o.closed then
    if o.timeoutProcessing then (o, [])
    else if 30 < env.now - o.submitTime then
      let o1 := { o with timeoutProcessing := true }
      let cancelCalls : List ApiCall :=
        match o1.orderId with
        | some oid =>
            (cancel_order_with_rate_limit env.cancelCanRequest env.cancelWaitOk
              env.cancelExchange oid).2
        | none => []
      if 0 < o1.qty then
        let marketPrice := get_current_price env.wsPrice
        if 0 < marketPrice then
          let r := place_market_order_with_rate_limit env.market side.orderSideStr o1.qty
          let o2 :=
            match r.1 with
            | some mid =>
                { o1 with orderId := some mid, entryPrice := marketPrice,
                          entryPending := false }
            | none => o1
          ({ o2 with closed := true }, cancelCalls ++ r.2.1)
        else ({ o1 with closed := true }, cancelCalls)
      else ({ o1 with closed := true }, cancelCalls)
    else (o, [])
  else (o, [])

/-- `SymbolEngine._has_duplicate_pending_order` (symbol_engine.py
1884-1914): some order of the side is not closed, was submitted at most
30 s ago, and its quantity differs from the new quantity by less than
0.001. -/
def has_duplicate_pending_order (now : ℚ) (activeOrders : List Order) (qty : ℚ) : Bool :=
  activeOrders.any fun o =>
    !o.closed && !(decide (30 < now - o.submitTime)) && decide (|o.qty - qty| < 1/1000)

/-- `SymbolEngine._execute_limit_entry_only` (symbol_engine.py 1587-1618):
nudge the price by 0.02 percent toward fill (up for long, down for
short), tick-round it, and submit one limit order.  `placeOutcome` is the
exchange's order id (None on failure). -/
def execute_limit_entry_only (side : Side) (qty price tick : ℚ)
    (placeOutcome : Option String) : Option String × List ApiCall :=
  let raw := if side = Side.LONG then price * (1.0002 : ℚ) else price * (0.9998 : ℚ)
  let limitPrice := adjust_price tick raw
  (placeOutcome, [ApiCall.placeLimit side.orderSideStr qty limitPrice])

/-- `SymbolEngine._place_entry_order` (symbol_engine.py 1555-1585): the
strict direction-conflict guard runs first (an exception there also
refuses); then the duplicate-pending-order check refuses without any
exchange call; then the optimal entry price is selected (None makes the
limit-entry helper raise, which is caught and returns None); otherwise a
single limit entry is executed. -/
def place_entry_order (conflictAllowed : Bool) (now : ℚ) (t : TrackerState)
    (side : Side) (qty : ℚ) (optimalPrice : Option ℚ) (tick : ℚ)
    (placeOutcome : Option String) : Option String × List ApiCall :=
  if !conflictAllowed then (none, [])
  else if has_duplicate_pending_order now (t.activeOrders side) qty then (none, [])
  else
    match optimalPrice with
    | none => (none, [])
    | some p => execute_limit_entry_only side qty p tick placeOutcome

/-- Minimum of a list of rationals (Python `min`, empty list guarded by
callers). -/
def listMin : List ℚ → ℚ
  | [] => 0
  | x :: xs => xs.foldl min x

/-- Maximum of a list of rationals (Python `max`, empty list guarded by
callers). -/
def listMax : List ℚ → ℚ
  | [] => 0
  | x :: xs => xs.foldl max x

/-- Python `l[-n:]`: the last `n` elements. -/
def lastN (n : Nat) (l : List α) : List α := l.drop (l.length - n)

/-- Price position within the recent range (symbol_engine.py 1258-1261):
`(price - min(lows)) / (max(highs) - min(lows) + 1e-9)` over the last 20
klines; each kline is embedded as its (high, low) pair. -/
def pos_pct (price : ℚ) (klines : List (ℚ × ℚ)) : ℚ :=
  let lows := (lastN 20 klines).map Prod.snd
  let highs := (lastN 20 klines).map Prod.fst
  (price - listMin lows) / (listMax highs - listMin lows + 1/1000000000)

/-- Position advantage (symbol_engine.py 1265): long below 30 percent of
the recent range, short above 70 percent. -/
def position_advantage (side : Side) (p : ℚ) : Bool :=
  match side with
  | .LONG => decide (p < (0.3 : ℚ))
  | .SHORT => decide ((0.7 : ℚ) < p)

/-- Cooldown override (symbol_engine.py 1267-1277): high score, position
advantage, technical breakout (score plus advantage), or medium score,
with the SHORT floors (4.5 / 4.0 / 4.2) stricter than the LONG floors
(4.0 / 3.5 / 3.8). -/
def entry_override (side : Side) (entryScore posP : ℚ) : Bool :=
  let adv := position_advantage side posP
  match side with
  | .SHORT =>
      decide ((4.5 : ℚ) ≤ entryScore) || adv ||
        (decide ((4.0 : ℚ) ≤ entryScore) && adv) || decide ((4.2 : ℚ) ≤ entryScore)
  | .LONG =>
      decide ((4.0 : ℚ) ≤ entryScore) || adv ||
        (decide ((3.5 : ℚ) ≤ entryScore) && adv) || decide ((3.8 : ℚ) ≤ entryScore)

/-- Modelled from the spec: `core.unified_cooldown_manager` is not under
src/.  Spec section 3 (Cooldown Record): an entry is in cooldown while
`now - lossTime < window` (window default 3 hours). -/
def cooldown_blocks (lossTime now window : ℚ) : Bool := decide (now - lossTime < window)

/-- Modelled from the spec: `can_open_position(side, override, ...)` of
the unified cooldown manager and `cooldown_guard.can_open` (both not
under src/).  Spec section 4.4: while the cooldown is active the entry is
refused unless the caller asserts an override. -/
def can_open_with_override (inCooldown override : Bool) : Bool := !inCooldown || override

/-- `SymbolEngine._check_cooldown_and_score` (symbol_engine.py
1256-1319): compute the range position and the override, consult the
unified cooldown manager and the legacy cooldown guard (both refuse
without an override during cooldown), refuse under emergency protection,
and finally refuse a score below the direction threshold
(`max(dynamic, 4.0)` for short, `max(dynamic, 3.5)` for long) when no
override holds. -/
def check_cooldown_and_score (side : Side) (entryScore price : ℚ)
    (klines : List (ℚ × ℚ)) (unifiedInCooldown legacyInCooldown : Bool)
    (emergencyProtection : Bool) (dynamicThreshold : ℚ) : Bool :=
  let p := pos_pct price klines
  let override := entry_override side entryScore p
  if !(can_open_with_override unifiedInCooldown override) then false
  else if !(can_open_with_override legacyInCooldown override) then false
  else if emergencyProtection then false
  else
    let dirThreshold := max dynamicThreshold (if side = Side.SHORT then (4.0 : ℚ) else 3.5)
    if decide (entryScore < dirThreshold) && !override then false
    else true

/-- The 90 s calm-down after closing the opposite direction
(symbol_engine.py 925-928). -/
def recent_reverse_close (lastClose : Option ℚ) (now : ℚ) : Bool :=
  match lastClose with
  | some lc => decide (now - lc < 90)
  | none => false

/-- `SymbolEngine._enhanced_loss_protection_check` (symbol_engine.py
1139-1196): refresh floating P&L, then refuse if any non-closed order of
the side shows a negative floating P&L. -/
def enhanced_loss_protection_check (t : TrackerState) (side : Side) (price : ℚ) : Bool :=
  let t1 := t.applyOp (.updateFloatingPnl side price)
  (t1.activeOrders side).all fun o => decide (0 ≤ o.floatingPnl)

/-- Weight-manager probabilistic skip (symbol_engine.py 1079-1099): with a
weight below 0.5, skip when the drawn random number exceeds the weight. -/
def weightSkip (weight : Option ℚ) (randVal : ℚ) : Bool :=
  match weight with
  | some w => decide (w < (0.5 : ℚ)) && decide (w < randVal)
  | none => false

/-- `SymbolEngine._can_open_position` (symbol_engine.py 1077-1137): the
pre-entry gate sequence — weight skip, loss cooldown, multi-timeframe
agreement, the 90 s reverse-close calm-down, the direction mutual
exclusion on the tracker's aggregate quantities, and the
extreme-order-floating-loss check. -/
def can_open_position (weight : Option ℚ) (randVal : ℚ) (cooldownBlocked : Bool)
    (multiSignals : List String) (lastCloseReverse : Option ℚ) (now : ℚ)
    (t : TrackerState) (side : Side) (extremeLoss : Bool) : Bool :=
  if weightSkip weight randVal then false
  else if cooldownBlocked then false
  else if multiSignals.count side.dirName < 2 then false
  else if recent_reverse_close lastCloseReverse now then false
  else if decide (side = Side.LONG) && decide (0 < t.totalQty Side.SHORT) then false
  else if decide (side = Side.SHORT) && decide (0 < t.totalQty Side.LONG) then false
  else if extremeLoss then false
  else true

/-- One raw element of the exchange's positionRisk response:
either a well-formed per-direction position entry, or a malformed element
on which the Python loop body raises. -/
inductive RawPos
  | malformed
  | pos (symbol positionSide : String) (amt entry : ℚ)
deriving DecidableEq, Repr

/-- Parse a `positionSide` string; anything but LONG/SHORT is skipped. -/
def sideOfStr (s : String) : Option Side :=
  if s = "LONG" then some Side.LONG
  else if s = "SHORT" then some Side.SHORT
  else none

/-- Ingestion loop of `UMBinanceTrader.sync_position_from_binance`
(UMBinanceTrader.py 366-405), which runs after `tracker.reset()`:
skip foreign symbols, non-directional sides and zero amounts; add a
restored order per remaining entry.  A malformed element raises, the
exception propagates to the handler (which never restores the tracker),
so ingestion stops with the state accumulated so far. -/
def ingest_positions (symbol : String) : List RawPos → TrackerState → TrackerState
  | [], t => t
  | .malformed :: _, t => t
  | .pos s ps amt entry :: rest, t =>
      if s ≠ symbol then ingest_positions symbol rest t
      else
        match sideOfStr ps with
        | none => ingest_positions symbol rest t
        | some side =>
            if amt = 0 then ingest_positions symbol rest t
            else
              ingest_positions symbol rest
                (t.applyOp (.addOrder side
                  { orderId := some ("RESTORED-" ++ ps), qty := |amt|,
                    entryPrice := entry, submitTime := 0, entryPending := false,
                    closed := false, timeoutProcessing := false, floatingPnl := 0 }))

/-- `UMBinanceTrader.sync_position_from_binance` (UMBinanceTrader.py
348-421): an exception raised while fetching or parsing the response
(before the reset) reaches the handler with the tracker untouched; on a
successful fetch the tracker is reset first and then repopulated from the
response elements. -/
def sync_position_from_binance (symbol : String)
    (fetch : Except Unit (List RawPos)) (t : TrackerState) : TrackerState :=
  match fetch with
  | .error _ => t
  | .ok data => ingest_positions symbol data (t.applyOp .reset)

/-- External outcomes consumed by `SymbolEngine._execute_entry`
(symbol_engine.py 1332-1447): the sync decision and its fetch outcome,
the second professional-analyzer verdict, the conflict-guard verdicts, the
position manager's opposite quantity, the funds check, the computed
quantity and notional, the selected entry price, the tick size, and the
exchange's reply to the limit order. -/
structure ExecCtx where
  symbol : String
  now : ℚ
  shouldSync : Bool
  syncFetch : Except Unit (List RawPos)
  analyzerAllowed : Bool
  conflictAllowed : Bool
  pmOppositeQty : ℚ
  fundsOk : Bool
  qtyNotional : Option (ℚ × ℚ)
  placeConflictAllowed : Bool
  optimalPrice : Option ℚ
  tick : ℚ
  placeOutcome : Option String
deriving Repr

/-- `SymbolEngine._execute_entry` (symbol_engine.py 1332-1447): optional
pre-entry position sync (an exchange call), the professional-analyzer
gate, the triple direction-conflict protection (guard module, position
manager, tracker), the funds gate, quantity computation, the
pending-order gate, and finally the limit-order submission through
`_place_entry_order`. -/
def execute_entry (ec : ExecCtx) (t : TrackerState) (side : Side) :
    Option String × List ApiCall :=
  let t1 := if ec.shouldSync then sync_position_from_binance ec.symbol ec.syncFetch t else t
  let syncCalls : List ApiCall := if ec.shouldSync then [.syncPositions] else []
  if !ec.analyzerAllowed then (none, syncCalls)
  else if !ec.conflictAllowed then (none, syncCalls)
  else if 0 < ec.pmOppositeQty then (none, syncCalls)
  else if 0 < t1.totalQty side.opposite then (none, syncCalls)
  else if !ec.fundsOk then (none, syncCalls)
  else
    match ec.qtyNotional with
    | none => (none, syncCalls)
    | some (qty, _) =>
        if qty ≤ 0 then (none, syncCalls)
        else if (t1.activeOrders side).any (fun o => o.entryPending && !o.closed) then
          (none, syncCalls)
        else
          let r := place_entry_order ec.placeConflictAllowed ec.now t1 side qty
            ec.optimalPrice ec.tick ec.placeOutcome
          (r.1, syncCalls ++ r.2)

/-- External outcomes consumed by one direction's pass of
`SymbolEngine._process_entry_logic` (symbol_engine.py 877-1008). -/
structure EntryCtx where
  analyzerAllowed : Bool
  multiSignals : List String
  lastCloseReverse : Option ℚ
  now : ℚ
  conflictAllowed : Bool
  price : ℚ
  globalManagerPresent : Bool
  globalOutcome : Except Unit Bool
  globalHandlerOutcome : Except Unit Bool
  entryScore : ℚ
  predictedPeak : ℚ
  klines : List (ℚ × ℚ)
  unifiedInCooldown : Bool
  legacyInCooldown : Bool
  emergencyProtection : Bool
  dynamicThreshold : ℚ
  exec : ExecCtx
deriving Repr

/-- One direction's pass of `SymbolEngine._process_entry_logic`
(symbol_engine.py 877-1008), in source order: professional-analyzer gate,
multi-timeframe agreement, the 90 s reverse-close calm-down, the
direction-conflict guard, the direction mutual exclusion on the tracker's
aggregate quantities, floating-P&L refresh plus loss protection, the
global directional-risk gate, the predicted-peak score penalty, the
cooldown-and-score gate, and only then `_execute_entry`.  Returns whether
`_execute_entry` was reached, plus every exchange call made. -/
def process_entry_direction (ctx : EntryCtx) (t : TrackerState) (side : Side) :
    Bool × List ApiCall :=
  if !ctx.analyzerAllowed then (false, [])
  else if ctx.multiSignals.count side.dirName < 2 then (false, [])
  else if recent_reverse_close ctx.lastCloseReverse ctx.now then (false, [])
  else if !ctx.conflictAllowed then (false, [])
  else if decide (side = Side.LONG) && decide (0 < t.totalQty Side.SHORT) then (false, [])
  else if decide (side = Side.SHORT) && decide (0 < t.totalQty Side.LONG) then (false, [])
  else
    let t1 := t.applyOp (.updateFloatingPnl side ctx.price)
    if !enhanced_loss_protection_check t1 side ctx.price then (false, [])
    else if !check_global_directional_risk ctx.globalManagerPresent ctx.globalOutcome
        ctx.globalHandlerOutcome then (false, [])
    else
      let score :=
        if ctx.predictedPeak < (0.25 : ℚ) then ctx.entryScore - 1 else ctx.entryScore
      if !check_cooldown_and_score side score ctx.price ctx.klines ctx.unifiedInCooldown
          ctx.legacyInCooldown ctx.emergencyProtection ctx.dynamicThreshold then (false, [])
      else
        let r := execute_entry ctx.exec t1 side
        (true, r.2)

/-- A sample order: 10 units held SHORT (spec Scenario B). -/
def sampleShortOrder : Order :=
  { orderId := some "S1", qty := 10, entryPrice := 2, submitTime := 0,
    entryPending := false, closed := false, timeoutProcessing := false,
    floatingPnl := 0 }

/-- A tracker holding a SHORT position of quantity 10 (spec Scenario B). -/
def sampleTrackerShort10 : TrackerState :=
  { longOrders := [], shortOrders := [sampleShortOrder],
    longTotalQty := 0, shortTotalQty := 10 }

/-- A sample execution context for witnesses. -/
def sampleExecCtx : ExecCtx :=
  { symbol := "XUSD", now := 100, shouldSync := false, syncFetch := .ok [],
    analyzerAllowed := true, conflictAllowed := true, pmOppositeQty := 0,
    fundsOk := true, qtyNotional := some (1, 10), placeConflictAllowed := true,
    optimalPrice := some 10, tick := 1/10000, placeOutcome := some "E1" }

/-- A sample entry context for witnesses: every external gate answers
"allow" so that only the embedded engine logic can refuse. -/
def sampleEntryCtx : EntryCtx :=
  { analyzerAllowed := true, multiSignals := ["long", "long", "long"],
    lastCloseReverse := none, now := 100, conflictAllowed := true, price := 10,
    globalManagerPresent := true, globalOutcome := .ok false,
    globalHandlerOutcome := .ok true, entryScore := 5, predictedPeak := 1,
    klines := [(2, 1)], unifiedInCooldown := false, legacyInCooldown := false,
    emergencyProtection := false, dynamicThreshold := 3, exec := sampleExecCtx }

/-- A sample open LONG order of quantity 5. -/
def sampleLongOrder : Order :=
  { orderId := some "A", qty := 5, entryPrice := 1, submitTime := 0,
    entryPending := false, closed := false, timeoutProcessing := false,
    floatingPnl := 0 }

/-- A tracker holding one open LONG order of quantity 5, for the
reconciliation counterexample. -/
def sampleTrackerLong5 : TrackerState :=
  { longOrders := [sampleLongOrder],
    shortOrders := [], longTotalQty := 5, shortTotalQty := 0 }

/-- A pending entry order used by the timeout witness. -/
def samplePendingOrder : Order :=
  { orderId := some "42", qty := 1, entryPrice := 10, submitTime := 0,
    entryPending := true, closed := false, timeoutProcessing := false,
    floatingPnl := 0 }

/-- A timeout environment whose admission budget is exhausted for the
market order (forcing the emergency bypass) but grants the cancel. -/
def sampleTimeoutEnv : TimeoutEnv :=
  { now := 31, wsPrice := some 2, cancelCanRequest := true, cancelWaitOk := false,
    cancelExchange := .ok (),
    market := { currentPosition := 0, canRequest := false, waitOk := false,
                traderOrderId := some "99" } }

/-! ## Helper lemmas -/

theorem orders_withSide_self (t : TrackerState) (s : Side) (os : List Order) (q : ℚ) :
    (t.withSide s os q).orders s = os := by
  cases s <;> rfl

theorem totalQty_withSide_self (t : TrackerState) (s : Side) (os : List Order) (q : ℚ) :
    (t.withSide s os q).totalQty s = q := by
  cases s <;> rfl

theorem orders_withSide_other (t : TrackerState) (s s' : Side) (os : List Order) (q : ℚ)
    (h : s' ≠ s) : (t.withSide s os q).orders s' = t.orders s' := by
  cases s <;> cases s' <;> first
    | rfl
    | exact absurd rfl h

theorem totalQty_withSide_other (t : TrackerState) (s s' : Side) (os : List Order) (q : ℚ)
    (h : s' ≠ s) : (t.withSide s os q).totalQty s' = t.totalQty s' := by
  cases s <;> cases s' <;> first
    | rfl
    | exact absurd rfl h

theorem sumActiveQty_eq (t : TrackerState) (s : Side) :
    sumActiveQty t s = (((t.orders s).filter fun o => !o.closed).map Order.qty).sum := rfl

theorem filter_closed_map_close (l : List Order) :
    (l.map fun o => { o with closed := true }).filter (fun o => !o.closed) = [] := by
  induction l with
  | nil => rfl
  | cons a l ih => simp [List.filter_cons, ih]

theorem sum_filter_map_pnl (l : List Order) (f : Order → ℚ) :
    ((((l.map fun o => { o with floatingPnl := f o }).filter fun o => !o.closed).map
        Order.qty).sum)
      = (((l.filter fun o => !o.closed).map Order.qty).sum) := by
  induction l with
  | nil => rfl
  | cons a l ih =>
      by_cases h : a.closed
      · simp [List.filter_cons, h, ih]
      · simp [List.filter_cons, h, ih]

theorem applyOp_preserves_invariant (t : TrackerState) (op : LedgerOp)
    (h : ledger_invariant t) : ledger_invariant (t.applyOp op) := by
  intro s'
  cases op with
  | addOrder s o =>
      by_cases hdup : ((t.orders s).any fun p => decide (p.orderId = o.orderId)) = true
      · simpa [TrackerState.applyOp, hdup] using h s'
      · by_cases hs : s' = s
        · subst hs
          rw [sumActiveQty_eq]
          simp only [TrackerState.applyOp, hdup, if_false, Bool.false_eq_true,
            orders_withSide_self, totalQty_withSide_self]
          rw [List.filter_append, List.map_append, List.sum_append]
          have hold := h s'
          rw [sumActiveQty_eq] at hold
          simp [hold]
        · rw [sumActiveQty_eq]
          simp only [TrackerState.applyOp, hdup, if_false, Bool.false_eq_true,
            orders_withSide_other t s s' _ _ hs, totalQty_withSide_other t s s' _ _ hs]
          rw [← sumActiveQty_eq]
          exact h s'
  | closeOrders s =>
      by_cases hs : s' = s
      · subst hs
        rw [sumActiveQty_eq]
        simp only [TrackerState.applyOp, orders_withSide_self, totalQty_withSide_self]
        rw [filter_closed_map_close]
        rfl
      · rw [sumActiveQty_eq]
        simp only [TrackerState.applyOp, orders_withSide_other t s s' _ _ hs,
          totalQty_withSide_other t s s' _ _ hs]
        rw [← sumActiveQty_eq]
        exact h s'
  | reset =>
      cases s' <;> rfl
  | updateFloatingPnl s price =>
      by_cases hs : s' = s
      · subst hs
        rw [sumActiveQty_eq]
        simp only [TrackerState.applyOp, orders_withSide_self, totalQty_withSide_self]
        rw [sum_filter_map_pnl]
        rw [← sumActiveQty_eq]
        exact h s'
      · rw [sumActiveQty_eq]
        simp only [TrackerState.applyOp, orders_withSide_other t s s' _ _ hs,
          totalQty_withSide_other t s s' _ _ hs]
        rw [← sumActiveQty_eq]
        exact h s'

theorem get_current_price_pos (ws : Option ℚ) : 0 < get_current_price ws := by
  cases ws with
  | none => norm_num [get_current_price]
  | some p =>
      by_cases h : 0 < p
      · simpa [get_current_price, h] using h
      · norm_num [get_current_price, h]

/-! ## Claim theorems -/

/-- C2: an internal error while evaluating the per-(symbol, direction)
loss-cooldown check reports the entry as blocked (fail closed), while an
internal error in the cross-symbol global directional-risk check reports
the entry as allowed (fail open), both under the spec-modelled exception
handler and when that handler itself raises. -/
theorem c2_guard_error_asymmetry :
    (∀ e : Unit, is_in_loss_cooldown (.error e) = true) ∧
    (∀ present : Bool,
        check_global_directional_risk present (.error ()) handle_global_risk_exception
          = true) ∧
    (∀ (present : Bool) (e : Unit),
        check_global_directional_risk present (.error ()) (.error e) = true) := by
  refine ⟨fun e => rfl, fun present => ?_, fun present e => ?_⟩ <;> cases present <;> rfl

/-- C8: `cancel_order` of the exchange client never returns a boolean —
its body has no return statement, so it returns Python None for both a
successful and a failed cancellation, contradicting the documented
`cancel_order(symbol, order_id) -> bool` contract its caller
`_cancel_order_with_rate_limit` relies on. -/
theorem c8_cancel_order_returns_none :
    (∀ r : Except Unit Unit, cancel_order r = none) ∧
    cancel_order (.ok ()) ≠ some true := by
  exact ⟨fun r => by cases r <;> rfl, by simp [cancel_order]⟩

/-- C10: the price submitted by `place_limit_order` is independent of the
caller-supplied limit price, and equals the tick-rounded order-book
recomputation (bid times 1.0005 for SELL, ask times 0.9995 otherwise,
falling back to the cached last price or 1.0 when the book fetch
fails). -/
theorem c10_limit_price_recomputed :
    (∀ (s : String) (p p' : ℚ) (book : Except Unit (ℚ × ℚ)) (cached : Option ℚ) (tick : ℚ),
        place_limit_order_price s p book cached tick
          = place_limit_order_price s p' book cached tick) ∧
    (∀ (p bid ask : ℚ) (cached : Option ℚ) (tick : ℚ),
        place_limit_order_price "SELL" p (.ok (bid, ask)) cached tick
          = adjust_price tick (bid * (1.0005 : ℚ))) ∧
    (∀ s : String, s ≠ "SELL" →
      ∀ (p bid ask : ℚ) (cached : Option ℚ) (tick : ℚ),
        place_limit_order_price s p (.ok (bid, ask)) cached tick
          = adjust_price tick (ask * (0.9995 : ℚ))) ∧
    (∀ (s : String) (p cp tick : ℚ),
        place_limit_order_price s p (.error ()) (some cp) tick
          = adjust_price tick (if cp = 0 then 1 else cp)) ∧
    (∀ (s : String) (p tick : ℚ),
        place_limit_order_price s p (.error ()) none tick = adjust_price tick 1) := by
  refine ⟨fun s p p' book cached tick => rfl, ?_, ?_, fun s p cp tick => rfl,
    fun s p tick => rfl⟩
  · intro p bid ask cached tick
    simp [place_limit_order_price]
  · intro s hs p bid ask cached tick
    simp [place_limit_order_price, hs]

/-- C10 witness: a BUY order with caller price 123 is submitted at the
tick-rounded recomputed ask-based price, independent of 123. -/
theorem c10_witness :
    ("BUY" : String) ≠ "SELL" ∧
    place_limit_order_price "BUY" 123 (.ok (2, 3)) none (1/10000)
      = adjust_price (1/10000) (3 * (0.9995 : ℚ)) :=
  ⟨by decide, c10_limit_price_recomputed.2.2.1 "BUY" (by decide) 123 2 3 none (1/10000)⟩

/-- C7 counterexample: the claim "any exception while fetching or
ingesting exchange data leaves the previous in-memory tracker state
untouched" fails on the code: a response whose first element is malformed
raises after `tracker.reset()` has already run, so a tracker that held an
open LONG order of quantity 5 ends up empty, not untouched. -/
theorem c7_sync_counterexample :
    sync_position_from_binance "XUSD" (.ok [RawPos.malformed]) sampleTrackerLong5
      ≠ sampleTrackerLong5 := by
  have hres : sync_position_from_binance "XUSD" (.ok [RawPos.malformed]) sampleTrackerLong5
      = TrackerState.empty := rfl
  rw [hres]
  intro h
  have h2 := congrArg TrackerState.longOrders h
  simp [TrackerState.empty, sampleTrackerLong5] at h2

/-- C7 (amended): reconciliation is clear-then-repopulate — on a
successful fetch the result is independent of the previous tracker state
(exchange state wins, never a partial merge), and an exception raised
while fetching, before the reset, leaves the previous state untouched. -/
theorem c7_sync_clear_then_repopulate :
    (∀ (symbol : String) (e : Unit) (t : TrackerState),
        sync_position_from_binance symbol (.error e) t = t) ∧
    (∀ (symbol : String) (data : List RawPos) (t t' : TrackerState),
        sync_position_from_binance symbol (.ok data) t
          = sync_position_from_binance symbol (.ok data) t') :=
  ⟨fun _ _ _ => rfl, fun _ _ _ _ => rfl⟩

/-- C9 counterexample: the invariant does not survive the engine's direct
closed-flag writes at the claim's cited mutation sites.  A ledger reached
by one add_order (an open LONG order of quantity 5, stored aggregate 5)
satisfies the invariant, but after the in-place `o["closed"] = True`
mutation performed by `_check_pending_orders_timeout` (symbol_engine.py
869) the stored aggregate is still 5 while the sum over the non-closed
orders is 0. -/
theorem c9_counterexample :
    ledger_invariant (TrackerState.empty.applyOp (.addOrder Side.LONG sampleLongOrder)) ∧
    ¬ ledger_invariant
        ((TrackerState.empty.applyOp (.addOrder Side.LONG sampleLongOrder)).markOrderClosed
          Side.LONG (some "A")) := by
  constructor
  · intro s
    cases s <;>
      norm_num [TrackerState.applyOp, TrackerState.empty, TrackerState.withSide,
        sampleLongOrder, sumActiveQty, TrackerState.activeOrders, TrackerState.orders,
        TrackerState.totalQty]
  · intro h
    have h1 := h Side.LONG
    norm_num [TrackerState.applyOp, TrackerState.empty, TrackerState.withSide,
      TrackerState.markOrderClosed, sampleLongOrder, sumActiveQty,
      TrackerState.activeOrders, TrackerState.orders, TrackerState.totalQty] at h1

/-- C9 (amended): after every mutation performed through the ledger
contract operations (add_order, close_orders, reset, update_floating_pnl)
the stored aggregate quantity equals the sum of the quantities of that
side's non-closed orders — proved for every state reachable from the
empty ledger; the engine's direct in-place closed-flag writes
(symbol_engine.py 869, 1065, 2049) bypass these operations and break the
equality, as the counterexample shows. -/
theorem c9_total_quantity_invariant :
    ∀ ops : List LedgerOp,
      ledger_invariant (ops.foldl TrackerState.applyOp TrackerState.empty) := by
  have hstep : ∀ (ops : List LedgerOp) (t : TrackerState), ledger_invariant t →
      ledger_invariant (ops.foldl TrackerState.applyOp t) := by
    intro ops
    induction ops with
    | nil => exact fun t h => h
    | cons op ops ih => exact fun t h => ih _ (applyOp_preserves_invariant t op h)
  intro ops
  exact hstep ops TrackerState.empty (by intro s; cases s <;> rfl)

/-- C4: under an active loss cooldown the entry is refused unless an
override holds (score at or above the direction-specific floor, or a
quantitatively favorable range position); in particular a SHORT attempt
with score 2.0 one hour into a 3-hour cooldown is refused, while the same
attempt with score 4.6 is allowed via the high-score override. -/
theorem c4_cooldown_override :
    (∀ (side : Side) (entryScore price : ℚ) (klines : List (ℚ × ℚ))
        (legacy emergency : Bool) (dyn : ℚ),
        entry_override side entryScore (pos_pct price klines) = false →
        check_cooldown_and_score side entryScore price klines true legacy emergency dyn
          = false) ∧
    cooldown_blocks 0 3600 10800 = true ∧
    check_cooldown_and_score Side.SHORT 2 (3/2) [(2, 1)]
        (cooldown_blocks 0 3600 10800) false false 3 = false ∧
    (entry_override Side.SHORT (4.6 : ℚ) (pos_pct (3/2) [(2, 1)]) = true ∧
      check_cooldown_and_score Side.SHORT (4.6 : ℚ) (3/2) [(2, 1)]
        (cooldown_blocks 0 3600 10800) false false 3 = true) := by
  have hblocks : cooldown_blocks 0 3600 10800 = true := by norm_num [cooldown_blocks]
  refine ⟨?_, hblocks, ?_, ?_, ?_⟩
  · intro side s p kl l e d h
    simp [check_cooldown_and_score, can_open_with_override, h]
  · rw [hblocks]
    norm_num [check_cooldown_and_score, entry_override, position_advantage, pos_pct,
      lastN, listMin, listMax, can_open_with_override]
  · norm_num [entry_override, position_advantage, pos_pct, lastN, listMin, listMax]
  · rw [hblocks]
    norm_num [check_cooldown_and_score, entry_override, position_advantage, pos_pct,
      lastN, listMin, listMax, can_open_with_override]

/-- C4 witness: the cooldown-refusal branch of the theorem applied at the
concrete Scenario D refusal input (SHORT, score 2.0, no range
advantage). -/
theorem c4_witness :
    entry_override Side.SHORT 2 (pos_pct (3/2) [(2, 1)]) = false ∧
    check_cooldown_and_score Side.SHORT 2 (3/2) [(2, 1)] true false false 3 = false := by
  have h : entry_override Side.SHORT 2 (pos_pct (3/2) [(2, 1)]) = false := by
    norm_num [entry_override, position_advantage, pos_pct, lastN, listMin, listMax]
  exact ⟨h, c4_cooldown_override.1 Side.SHORT 2 (3/2) [(2, 1)] false false 3 h⟩

/-- C5: if some non-closed order of the same (symbol, direction) was
submitted at most 30 seconds ago with a quantity matching to within
0.001, the entry submission is refused and no exchange call is made. -/
theorem c5_duplicate_entry_refused :
    ∀ (conflictAllowed : Bool) (now : ℚ) (t : TrackerState) (side : Side) (qty : ℚ)
      (optimalPrice : Option ℚ) (tick : ℚ) (placeOutcome : Option String) (o : Order),
      o ∈ t.orders side → o.closed = false → now - o.submitTime ≤ 30 →
      |o.qty - qty| < 1/1000 →
      place_entry_order conflictAllowed now t side qty optimalPrice tick placeOutcome
        = (none, []) := by
  intro conflictAllowed now t side qty optimalPrice tick placeOutcome o hmem hcl ht habs
  have hdup : has_duplicate_pending_order now (t.activeOrders side) qty = true := by
    unfold has_duplicate_pending_order
    apply List.any_eq_true.mpr
    refine ⟨o, List.mem_filter.mpr ⟨hmem, by simp [hcl]⟩, ?_⟩
    simp only [hcl, Bool.not_false, Bool.true_and, Bool.and_eq_true, Bool.not_eq_true',
      decide_eq_false_iff_not, decide_eq_true_eq, not_lt]
    exact ⟨ht, habs⟩
  cases conflictAllowed with
  | false => rfl
  | true => simp [place_entry_order, hdup]

/-- C5 witness: the duplicate-suppression theorem applied to a tracker
holding a 10-quantity SHORT order submitted 10 seconds ago, refusing a
new SHORT submission of quantity 10. -/
theorem c5_witness :
    (sampleShortOrder ∈ sampleTrackerShort10.orders Side.SHORT ∧
        sampleShortOrder.closed = false ∧
        (10 : ℚ) - sampleShortOrder.submitTime ≤ 30 ∧
        |sampleShortOrder.qty - 10| < 1/1000) ∧
    place_entry_order true 10 sampleTrackerShort10 Side.SHORT 10 (some 2) (1/10000)
        (some "X") = (none, []) := by
  have hmem : sampleShortOrder ∈ sampleTrackerShort10.orders Side.SHORT := by
    simp [sampleTrackerShort10, TrackerState.orders]
  have hcl : sampleShortOrder.closed = false := rfl
  have ht : (10 : ℚ) - sampleShortOrder.submitTime ≤ 30 := by norm_num [sampleShortOrder]
  have habs : |sampleShortOrder.qty - (10 : ℚ)| < 1/1000 := by norm_num [sampleShortOrder]
  exact ⟨⟨hmem, hcl, ht, habs⟩,
    c5_duplicate_entry_refused true 10 sampleTrackerShort10 Side.SHORT 10 (some 2)
      (1/10000) (some "X") sampleShortOrder hmem hcl ht habs⟩

/-- C6: with the place-order admission budget exhausted, the
CRITICAL-priority market-order escalation still makes the exchange call
through the bounded emergency bypass and logs the violation, while a
MEDIUM-priority order-status query under the same denial makes no
exchange call and returns the non-error fallback "UNKNOWN". -/
theorem c6_critical_bypass_medium_fallback :
    (∀ (env : MarketEnv) (orderSide : String) (qty : ℚ),
        env.canRequest = false → env.currentPosition ≤ 0 →
        ApiCall.placeMarket orderSide qty
            ∈ (place_market_order_with_rate_limit env orderSide qty).2.1 ∧
        (place_market_order_with_rate_limit env orderSide qty).2.2 = true) ∧
    (∀ traderStatus orderId : String,
        check_order_status_with_rate_limit false traderStatus orderId = ("UNKNOWN", []) ∧
        ("UNKNOWN" : String) ≠ "ERROR") := by
  constructor
  · intro env orderSide qty hcan hpos
    have hnl : ¬ 0 < env.currentPosition := not_lt.mpr hpos
    cases hw : env.waitOk <;>
      simp [place_market_order_with_rate_limit, hcan, hnl, hw]
  · intro traderStatus orderId
    exact ⟨rfl, by decide⟩

/-- C6 witness: the bypass theorem applied to an exhausted-budget
environment with no existing position. -/
theorem c6_witness :
    (sampleTimeoutEnv.market.canRequest = false ∧
        sampleTimeoutEnv.market.currentPosition ≤ 0) ∧
    (ApiCall.placeMarket "BUY" 1
        ∈ (place_market_order_with_rate_limit sampleTimeoutEnv.market "BUY" 1).2.1 ∧
      (place_market_order_with_rate_limit sampleTimeoutEnv.market "BUY" 1).2.2 = true) := by
  have hcan : sampleTimeoutEnv.market.canRequest = false := rfl
  have hpos : sampleTimeoutEnv.market.currentPosition ≤ 0 := by norm_num [sampleTimeoutEnv]
  exact ⟨⟨hcan, hpos⟩,
    c6_critical_bypass_medium_fallback.1 sampleTimeoutEnv.market "BUY" 1 hcan hpos⟩

/-- C3: a pending entry order past the 30-second timeout is handled so
that the cancel is attempted whenever admission control grants it, the
market-order escalation for the same quantity is submitted for every
cancel outcome (including a failed cancel), and the order ends closed in
exactly one terminal resolution — filled via escalation when the market
order is acknowledged, rejected otherwise — never left pending in
SUBMITTED. -/
theorem c3_timeout_escalation_terminal :
    ∀ (env : TimeoutEnv) (side : Side) (o : Order) (oid : String),
      o.entryPending = true → o.closed = false → o.timeoutProcessing = false →
      o.orderId = some oid → 30 < env.now - o.submitTime → 0 < o.qty →
      env.market.currentPosition ≤ 0 →
      ((env.cancelCanRequest = true ∨ env.cancelWaitOk = true) →
          ApiCall.cancelOrder oid ∈ (check_pending_order_timeout env side o).2) ∧
      ApiCall.placeMarket side.orderSideStr o.qty
          ∈ (check_pending_order_timeout env side o).2 ∧
      (check_pending_order_timeout env side o).1.closed = true ∧
      entryResolution (check_pending_order_timeout env side o).1
          ≠ EntryResolution.pendingSubmitted ∧
      (entryResolution (check_pending_order_timeout env side o).1
          = EntryResolution.filledViaEscalation ∨
        entryResolution (check_pending_order_timeout env side o).1
          = EntryResolution.rejectedEntry) := by
  intro env side o oid hp hc htp hid htime hqty hpos
  have hmp := get_current_price_pos env.wsPrice
  have hnl : ¬ 0 < env.market.currentPosition := not_lt.mpr hpos
  cases h1 : env.cancelCanRequest <;> cases h2 : env.cancelWaitOk <;>
    cases h3 : env.market.canRequest <;> cases h4 : env.market.waitOk <;>
    cases h5 : env.market.traderOrderId <;>
    simp [check_pending_order_timeout, cancel_order_with_rate_limit, cancel_order,
      place_market_order_with_rate_limit, entryResolution, hp, hc, htp, hid, htime,
      hqty, hmp, hnl, h1, h2, h3, h4, h5]

/-- C3 witness: the timeout theorem applied to a concrete pending order
(31 seconds old, quantity 1) in an environment where the market-order
budget is exhausted, so the escalation goes through the bypass. -/
theorem c3_witness :
    (samplePendingOrder.entryPending = true ∧
        30 < sampleTimeoutEnv.now - samplePendingOrder.submitTime ∧
        0 < samplePendingOrder.qty) ∧
    ApiCall.placeMarket Side.LONG.orderSideStr samplePendingOrder.qty
        ∈ (check_pending_order_timeout sampleTimeoutEnv Side.LONG samplePendingOrder).2 ∧
    (check_pending_order_timeout sampleTimeoutEnv Side.LONG samplePendingOrder).1.closed
        = true := by
  have hp : samplePendingOrder.entryPending = true := rfl
  have htime : 30 < sampleTimeoutEnv.now - samplePendingOrder.submitTime := by
    norm_num [sampleTimeoutEnv, samplePendingOrder]
  have hqty : 0 < samplePendingOrder.qty := by norm_num [samplePendingOrder]
  have hpos : sampleTimeoutEnv.market.currentPosition ≤ 0 := by norm_num [sampleTimeoutEnv]
  have h := c3_timeout_escalation_terminal sampleTimeoutEnv Side.LONG samplePendingOrder
    "42" hp rfl rfl rfl htime hqty hpos
  exact ⟨⟨hp, htime, hqty⟩, h.2.1, h.2.2.1⟩

/-- C1: if the tracker records a positive aggregate quantity for the
opposite direction of a symbol, the entry attempt for the other direction
is rejected by `_process_entry_logic` with no exchange call made, and the
`_can_open_position` gate likewise refuses, for every configuration of
the external gates. -/
theorem c1_mutual_exclusion_before_api :
    ∀ (ctx : EntryCtx) (t : TrackerState) (side : Side),
      0 < t.totalQty side.opposite →
      process_entry_direction ctx t side = (false, []) ∧
      (∀ (weight : Option ℚ) (randVal : ℚ) (cooldownBlocked extremeLoss : Bool),
        can_open_position weight randVal cooldownBlocked ctx.multiSignals
          ctx.lastCloseReverse ctx.now t side extremeLoss = false) := by
  intro ctx t side h
  constructor
  · cases side with
    | LONG =>
        simp only [Side.opposite] at h
        simp [process_entry_direction, decide_eq_true h]
    | SHORT =>
        simp only [Side.opposite] at h
        simp [process_entry_direction, decide_eq_true h]
  · intro weight randVal cooldownBlocked extremeLoss
    cases side with
    | LONG =>
        simp only [Side.opposite] at h
        simp [can_open_position, decide_eq_true h]
    | SHORT =>
        simp only [Side.opposite] at h
        simp [can_open_position, decide_eq_true h]

/-- C1 witness (spec Scenario B): with an active SHORT position of
quantity 10 and every external gate answering allow, the LONG entry
attempt is refused and the exchange-call trace is empty. -/
theorem c1_witness :
    0 < sampleTrackerShort10.totalQty Side.LONG.opposite ∧
    process_entry_direction sampleEntryCtx sampleTrackerShort10 Side.LONG = (false, []) := by
  have h0 : 0 < sampleTrackerShort10.totalQty Side.LONG.opposite := by
    norm_num [sampleTrackerShort10, TrackerState.totalQty, Side.opposite]
  exact ⟨h0,
    (c1_mutual_exclusion_before_api sampleEntryCtx sampleTrackerShort10 Side.LONG h0).1⟩

end Trading
